import Mathlib

/-!
Verification development for the `ga4admin` caching / query-translation layer.

A shallow embedding of the Go sources:
  * `internal/query/models.go`   — query configuration data model
  * the query executor file (package `query`)  — validation, filter
    translation, hashing and execution
  * `internal/api/data.go`       — `RunReport`, its request/response types and
    the request-level cache digest
  * the cache client file (package `cache`)    — the DuckDB-backed cache store

Modelling conventions:
  * Go `int`/`int64` become `Int`; wall-clock instants become `Nat` (Unix
    seconds); durations in hours become seconds via `* 3600`.
  * Go `float64` values carried by filters become `Rat`; the decimal
    rendering of `strconv.FormatFloat(v, 'f', -1, 64)` is modelled by the
    exact terminating decimal expansion of the rational value.
  * `time.Time` values that only flow through JSON serialization are
    represented directly by their RFC 3339 serialization (a `String`).
  * Pointer-valued optional data becomes `Option`; fallible Go functions
    returning `(T, error)` become `Except String T` (or a product with an
    `Option String` when the function also mutates state observable on the
    error path).
  * SQL tables become association lists in insertion order; `QueryRow`
    (first row of a result set) becomes `List.find?`.
-/

set_option autoImplicit false

namespace Ga4Admin

/-! ### Decimal / hex rendering helpers -/

/-- Decimal digits of `n`, most significant first, computed with explicit
fuel so that the definition reduces inside the kernel. -/
def natDigitsAux : Nat → Nat → List Char
  | 0, _ => []
  | fuel + 1, n =>
    if n < 10 then [Nat.digitChar n]
    else natDigitsAux fuel (n / 10) ++ [Nat.digitChar (n % 10)]

/-- Decimal rendering of a natural number. -/
def natDec (n : Nat) : String := String.mk (natDigitsAux (n + 1) n)

/-- Decimal rendering of an integer (Go `strconv.FormatInt(z, 10)`). -/
def intDec (z : Int) : String :=
  if z < 0 then "-" ++ natDec z.natAbs else natDec z.natAbs

/-! ### Exact decimal expansion of rationals

Models `strconv.FormatFloat(v, 'f', -1, 64)` on the idealized rational value:
the digits after the decimal point of a value in `[0, 1)`, stopping when the
remainder reaches zero (hence no trailing zeros). -/

/-- Go-style truncation toward zero, as in the conversion `int64(v)`:
`Int.tdiv` rounds toward zero, matching Go integer conversion of the value
represented as the exact rational `num/den`. -/
def goTrunc (q : Rat) : Int := Int.tdiv q.num (q.den : Int)

/-- The rational carried by an `int64` value, as Go's `float64(z)` carries
it back into the value domain. -/
def ratOfInt (z : Int) : Rat := mkRat z 1

/-- Digits after the decimal point of the fraction `a / b` (`a < b`),
produced by long division and stopping at remainder zero, so the expansion
carries full precision and no trailing zeros. -/
def fracDigitsAux : Nat → Nat → Nat → List Char
  | 0, _, _ => []
  | _ + 1, 0, _ => []
  | fuel + 1, a, b => Nat.digitChar (a * 10 / b) :: fracDigitsAux fuel (a * 10 % b) b

/-- Decimal rendering of a rational with exact precision and no trailing
zeros (model of `strconv.FormatFloat(v, 'f', -1, 64)`). -/
def formatRat (q : Rat) : String :=
  let sign : List Char := if q.num < 0 then ['-'] else []
  let n : Nat := q.num.natAbs
  let ip : Nat := n / q.den
  let fracCs : List Char := fracDigitsAux 1200 (n % q.den) q.den
  String.mk (sign ++ natDigitsAux (ip + 1) ip ++
    (if fracCs = [] then [] else '.' :: fracCs))

/-! ### SHA-256 over byte lists (crypto/sha256) -/

def m32 (n : Nat) : Nat := n % 4294967296

def rotr32 (n x : Nat) : Nat := m32 ((x >>> n) ||| (x <<< (32 - n)))

def shaK : List Nat :=
  [1116352408, 1899447441, 3049323471, 3921009573, 961987163, 1508970993, 2453635748, 2870763221,
   3624381080, 310598401, 607225278, 1426881987, 1925078388, 2162078206, 2614888103, 3248222580,
   3835390401, 4022224774, 264347078, 604807628, 770255983, 1249150122, 1555081692, 1996064986,
   2554220882, 2821834349, 2952996808, 3210313671, 3336571891, 3584528711, 113926993, 338241895,
   666307205, 773529912, 1294757372, 1396182291, 1695183700, 1986661051, 2177026350, 2456956037,
   2730485921, 2820302411, 3259730800, 3345764771, 3516065817, 3600352804, 4094571909, 275423344,
   430227734, 506948616, 659060556, 883997877, 958139571, 1322822218, 1537002063, 1747873779,
   1955562222, 2024104815, 2227730452, 2361852424, 2428436474, 2756734187, 3204031479, 3329325298]

structure Sha256State where
  a : Nat
  b : Nat
  c : Nat
  d : Nat
  e : Nat
  f : Nat
  g : Nat
  h : Nat

def shaInit : Sha256State :=
  ⟨1779033703, 3144134277, 1013904242, 2773480762, 1359893119, 2600822924, 528734635, 1541459225⟩

def bigSigma0 (x : Nat) : Nat := rotr32 2 x ^^^ rotr32 13 x ^^^ rotr32 22 x
def bigSigma1 (x : Nat) : Nat := rotr32 6 x ^^^ rotr32 11 x ^^^ rotr32 25 x
def smallSigma0 (x : Nat) : Nat := rotr32 7 x ^^^ rotr32 18 x ^^^ (x >>> 3)
def smallSigma1 (x : Nat) : Nat := rotr32 17 x ^^^ rotr32 19 x ^^^ (x >>> 10)
def shaCh (e f g : Nat) : Nat := (e &&& f) ^^^ ((e ^^^ 4294967295) &&& g)
def shaMaj (a b c : Nat) : Nat := (a &&& b) ^^^ (a &&& c) ^^^ (b &&& c)

def shaRound (st : Sha256State) (kw : Nat × Nat) : Sha256State :=
  let t1 := m32 (st.h + bigSigma1 st.e + shaCh st.e st.f st.g + kw.1 + kw.2)
  let t2 := m32 (bigSigma0 st.a + shaMaj st.a st.b st.c)
  ⟨m32 (t1 + t2), st.a, st.b, st.c, m32 (st.d + t1), st.e, st.f, st.g⟩

/-- Big-endian 32-bit words from a byte list. -/
def wordsOfBytes : List Nat → List Nat
  | b0 :: b1 :: b2 :: b3 :: rest =>
    (((b0 * 256 + b1) * 256 + b2) * 256 + b3) :: wordsOfBytes rest
  | _ => []

def extendSchedule : Nat → List Nat → List Nat
  | 0, ws => ws
  | fuel + 1, ws =>
    let i := ws.length
    let w16 := ws.getD (i - 16) 0
    let w15 := ws.getD (i - 15) 0
    let w7 := ws.getD (i - 7) 0
    let w2 := ws.getD (i - 2) 0
    extendSchedule fuel (ws ++ [m32 (w16 + smallSigma0 w15 + w7 + smallSigma1 w2)])

def shaCompress (hs : Sha256State) (block : List Nat) : Sha256State :=
  let ws := extendSchedule 48 (wordsOfBytes block)
  let st := (shaK.zip ws).foldl shaRound hs
  ⟨m32 (hs.a + st.a), m32 (hs.b + st.b), m32 (hs.c + st.c), m32 (hs.d + st.d),
   m32 (hs.e + st.e), m32 (hs.f + st.f), m32 (hs.g + st.g), m32 (hs.h + st.h)⟩

/-- `k` big-endian bytes of `n`, most significant first. -/
def bytesBE : Nat → Nat → List Nat
  | 0, _ => []
  | k + 1, n => bytesBE k (n / 256) ++ [n % 256]

def shaPad (msg : List Nat) : List Nat :=
  let len := msg.length
  msg ++ [128] ++ List.replicate ((120 - (len + 1) % 64) % 64) 0 ++ bytesBE 8 (len * 8)

def chunks64 : Nat → List Nat → List (List Nat)
  | 0, _ => []
  | _ + 1, [] => []
  | fuel + 1, l => l.take 64 :: chunks64 fuel (l.drop 64)

def hexChars : Nat → Nat → List Char
  | 0, _ => []
  | k + 1, n => hexChars k (n / 16) ++ [Nat.digitChar (n % 16)]

/-- Lowercase zero-padded hex of a 32-bit word, as printed by `%x` on the
digest bytes. -/
def hexWord (n : Nat) : String := String.mk (hexChars 8 n)

/-- UTF-8 encoding of one character. -/
def utf8Bytes (c : Char) : List Nat :=
  let n := c.toNat
  if n < 128 then [n]
  else if n < 2048 then [192 + n / 64, 128 + n % 64]
  else if n < 65536 then [224 + n / 4096, 128 + n / 64 % 64, 128 + n % 64]
  else [240 + n / 262144, 128 + n / 4096 % 64, 128 + n / 64 % 64, 128 + n % 64]

def strBytes (s : String) : List Nat := (s.data.map utf8Bytes).flatten

/-- Hex digest of SHA-256 of the UTF-8 bytes of a string:
`fmt.Sprintf("%x", sha256.Sum256(data))`. -/
def sha256Hex (s : String) : String :=
  let padded := shaPad (strBytes s)
  let blocks := chunks64 (padded.length + 1) padded
  let fin := blocks.foldl shaCompress shaInit
  hexWord fin.a ++ hexWord fin.b ++ hexWord fin.c ++ hexWord fin.d ++
  hexWord fin.e ++ hexWord fin.f ++ hexWord fin.g ++ hexWord fin.h

/-! ### GA4 Data API structures (internal/api/data.go) -/

structure Dimension where
  name : String
  dimensionExpression : String := ""
  deriving DecidableEq

structure Metric where
  name : String
  expression : String := ""
  deriving DecidableEq

structure DateRange where
  startDate : String
  endDate : String
  name : String := ""
  deriving DecidableEq

structure StringFilter where
  matchType : String
  value : String
  caseSensitive : Bool
  deriving DecidableEq

structure NumericValue where
  int64Value : String := ""
  doubleValue : String := ""
  deriving DecidableEq

structure NumericFilter where
  operation : String
  value : NumericValue
  deriving DecidableEq

structure BetweenFilter where
  fromValue : NumericValue
  toValue : NumericValue
  deriving DecidableEq

structure InListFilter where
  values : List String
  caseSensitive : Bool
  deriving DecidableEq

structure Filter where
  fieldName : String
  stringFilter : Option StringFilter := none
  numericFilter : Option NumericFilter := none
  betweenFilter : Option BetweenFilter := none
  inListFilter : Option InListFilter := none
  deriving DecidableEq

/-- `api.FilterExpression`; the single-field wrapper struct
`FilterExpressionList` is modelled as a bare list (its JSON wrapper object
is reinstated during marshalling). -/
inductive FilterExpression : Type where
  | mk (andGroup : Option (List FilterExpression))
       (orGroup : Option (List FilterExpression))
       (notExpression : Option FilterExpression)
       (filter : Option Filter)

def FilterExpression.andGroup : FilterExpression → Option (List FilterExpression)
  | .mk a _ _ _ => a

def FilterExpression.orGroup : FilterExpression → Option (List FilterExpression)
  | .mk _ o _ _ => o

def FilterExpression.notExpression : FilterExpression → Option FilterExpression
  | .mk _ _ n _ => n

def FilterExpression.filter : FilterExpression → Option Filter
  | .mk _ _ _ f => f

structure DimensionOrderBy where
  dimensionName : String
  orderType : String := ""
  deriving DecidableEq

structure MetricOrderBy where
  metricName : String
  deriving DecidableEq

structure OrderBy where
  desc : Bool := false
  dimension : Option DimensionOrderBy := none
  metric : Option MetricOrderBy := none
  deriving DecidableEq

structure RunReportRequest where
  property : String
  dimensions : List Dimension := []
  metrics : List Metric := []
  dateRanges : List DateRange := []
  dimensionFilter : Option FilterExpression := none
  metricFilter : Option FilterExpression := none
  offset : Int := 0
  limit : Int := 0
  metricAggregations : List String := []
  orderBys : List OrderBy := []
  currencyCode : String := ""
  keepEmptyRows : Bool := false
  returnPropertyQuota : Bool := false

structure DimensionHeader where
  name : String
  deriving DecidableEq

structure MetricHeader where
  name : String
  type : String
  deriving DecidableEq

structure DimensionValue where
  value : String
  deriving DecidableEq

structure MetricValue where
  value : String
  deriving DecidableEq

structure Row where
  dimensionValues : List DimensionValue
  metricValues : List MetricValue
  deriving DecidableEq

structure ResponseMetadata where
  currencyCode : String := ""
  timeZone : String := ""
  emptyReason : String := ""
  dataLossFromOtherRow : Bool := false
  deriving DecidableEq

structure QuotaStatus where
  consumed : Int := 0
  remaining : Int := 0
  deriving DecidableEq

structure PropertyQuota where
  tokensPerDay : Option QuotaStatus := none
  tokensPerHour : Option QuotaStatus := none
  concurrentRequests : Option QuotaStatus := none
  serverErrorsPerProjectPerHour : Option QuotaStatus := none
  deriving DecidableEq

structure RunReportResponse where
  dimensionHeaders : List DimensionHeader := []
  metricHeaders : List MetricHeader := []
  rows : List Row := []
  totals : List Row := []
  maximums : List Row := []
  minimums : List Row := []
  rowCount : Int := 0
  metadata : ResponseMetadata := {}
  propertyQuota : Option PropertyQuota := none
  kind : String := ""
  deriving DecidableEq

/-! ### Query configuration model (internal/query/models.go) -/

structure FilterConfig where
  fieldName : String
  type : String := ""
  stringMatchType : String := ""
  stringValue : String := ""
  stringCaseSensitive : Bool := false
  numericOperation : String := ""
  numericValue : Rat := 0
  betweenFrom : Rat := 0
  betweenTo : Rat := 0
  inListValues : List String := []
  inListCaseSensitive : Bool := false
  logicOperator : String := ""
  deriving DecidableEq

structure OrderByConfig where
  fieldName : String
  fieldType : String := ""
  descending : Bool := false
  orderType : String := ""
  deriving DecidableEq

/-- `query.QueryConfig`; `CreatedAt`/`UpdatedAt` (`time.Time`) are carried as
their RFC 3339 serializations. -/
structure QueryConfig where
  propertyID : String := ""
  name : String := ""
  description : String := ""
  dimensions : List String := []
  metrics : List String := []
  startDate : String := ""
  endDate : String := ""
  limit : Int := 0
  offset : Int := 0
  keepEmptyRows : Bool := false
  metricAggregations : List String := []
  currencyCode : String := ""
  returnPropertyQuota : Bool := false
  filters : List FilterConfig := []
  orderBy : List OrderByConfig := []
  createdAt : String := "0001-01-01T00:00:00Z"
  updatedAt : String := "0001-01-01T00:00:00Z"
  createdBy : String := ""
  deriving DecidableEq

structure QueryResult where
  queryID : String := ""
  propertyID : String := ""
  queryHash : String := ""
  queryConfig : Option QueryConfig := none
  executedAt : Nat := 0
  executionTime : String := ""
  rowCount : Int := 0
  fromCache : Bool := false
  dimensionHeaders : List DimensionHeader := []
  metricHeaders : List MetricHeader := []
  rows : List Row := []
  totals : List Row := []
  maximums : List Row := []
  minimums : List Row := []
  responseMetadata : Option ResponseMetadata := none
  propertyQuota : Option PropertyQuota := none
  error : String := ""
  deriving DecidableEq

structure QueryTemplate where
  name : String := ""
  description : String := ""
  category : String := ""
  query : QueryConfig := {}
  createdAt : String := "0001-01-01T00:00:00Z"
  updatedAt : String := "0001-01-01T00:00:00Z"
  usageCount : Int := 0
  lastUsed : Option Nat := none
  deriving DecidableEq

/-! ### Go `encoding/json` marshalling (struct-tag order, `omitempty`,
default HTML escaping) for the structures that are hashed -/

def jsonEscapeChar (c : Char) : List Char :=
  if c = '"' then ['\\', '"']
  else if c = '\\' then ['\\', '\\']
  else if c = '\n' then ['\\', 'n']
  else if c = '\r' then ['\\', 'r']
  else if c = '\t' then ['\\', 't']
  else if c.toNat < 32 then
    ['\\', 'u', '0', '0', Nat.digitChar (c.toNat / 16), Nat.digitChar (c.toNat % 16)]
  else if c = '<' then ['\\', 'u', '0', '0', '3', 'c']
  else if c = '>' then ['\\', 'u', '0', '0', '3', 'e']
  else if c = '&' then ['\\', 'u', '0', '0', '2', '6']
  else if c.toNat = 8232 then ['\\', 'u', '2', '0', '2', '8']
  else if c.toNat = 8233 then ['\\', 'u', '2', '0', '2', '9']
  else [c]

def jsonStr (s : String) : String :=
  "\"" ++ String.mk ((s.data.map jsonEscapeChar).flatten) ++ "\""

/-- Object from the present fields, in struct-tag order; `none` entries are
fields suppressed by `omitempty`. -/
def jsonObj (fields : List (Option (String × String))) : String :=
  "\x7b" ++ String.intercalate ","
    ((fields.filterMap id).map (fun p => jsonStr p.1 ++ ":" ++ p.2)) ++ "\x7d"

def jsonArr (elems : List String) : String :=
  "[" ++ String.intercalate "," elems ++ "]"

def jsonBool (b : Bool) : String := if b then "true" else "false"

def jsonInt (z : Int) : String := intDec z

/-- JSON rendering of a (rational-modelled) `float64`. -/
def jsonRat (q : Rat) : String := formatRat q

def optStr (k v : String) : Option (String × String) :=
  if v = "" then none else some (k, jsonStr v)

def optInt (k : String) (z : Int) : Option (String × String) :=
  if z = 0 then none else some (k, jsonInt z)

def optRat (k : String) (q : Rat) : Option (String × String) :=
  if q = 0 then none else some (k, jsonRat q)

def optBool (k : String) (b : Bool) : Option (String × String) :=
  if b then some (k, "true") else none

def optStrList (k : String) (l : List String) : Option (String × String) :=
  if l.isEmpty then none else some (k, jsonArr (l.map jsonStr))

def marshalFilterConfig (f : FilterConfig) : String :=
  jsonObj
    [some ("field_name", jsonStr f.fieldName),
     some ("type", jsonStr f.type),
     optStr "string_match_type" f.stringMatchType,
     optStr "string_value" f.stringValue,
     optBool "string_case_sensitive" f.stringCaseSensitive,
     optStr "numeric_operation" f.numericOperation,
     optRat "numeric_value" f.numericValue,
     optRat "between_from" f.betweenFrom,
     optRat "between_to" f.betweenTo,
     optStrList "in_list_values" f.inListValues,
     optBool "in_list_case_sensitive" f.inListCaseSensitive,
     optStr "logic_operator" f.logicOperator]

def marshalOrderByConfig (ob : OrderByConfig) : String :=
  jsonObj
    [some ("field_name", jsonStr ob.fieldName),
     some ("field_type", jsonStr ob.fieldType),
     some ("descending", jsonBool ob.descending),
     optStr "order_type" ob.orderType]

/-- `json.Marshal` on a full `QueryConfig` — note that `name`, `description`,
`created_at`, `updated_at` and `created_by` all participate. -/
def marshalQueryConfig (c : QueryConfig) : String :=
  jsonObj
    [some ("property_id", jsonStr c.propertyID),
     optStr "name" c.name,
     optStr "description" c.description,
     some ("dimensions", jsonArr (c.dimensions.map jsonStr)),
     some ("metrics", jsonArr (c.metrics.map jsonStr)),
     some ("start_date", jsonStr c.startDate),
     some ("end_date", jsonStr c.endDate),
     optInt "limit" c.limit,
     optInt "offset" c.offset,
     optBool "keep_empty_rows" c.keepEmptyRows,
     optStrList "metric_aggregations" c.metricAggregations,
     optStr "currency_code" c.currencyCode,
     optBool "return_property_quota" c.returnPropertyQuota,
     (if c.filters.isEmpty then none
      else some ("filters", jsonArr (c.filters.map marshalFilterConfig))),
     (if c.orderBy.isEmpty then none
      else some ("order_by", jsonArr (c.orderBy.map marshalOrderByConfig))),
     some ("created_at", jsonStr c.createdAt),
     some ("updated_at", jsonStr c.updatedAt),
     optStr "created_by" c.createdBy]

def marshalDimension (d : Dimension) : String :=
  jsonObj [some ("name", jsonStr d.name),
           optStr "dimensionExpression" d.dimensionExpression]

def marshalMetric (m : Metric) : String :=
  jsonObj [some ("name", jsonStr m.name), optStr "expression" m.expression]

def marshalDateRange (d : DateRange) : String :=
  jsonObj [some ("startDate", jsonStr d.startDate),
           some ("endDate", jsonStr d.endDate),
           optStr "name" d.name]

def marshalNumericValue (v : NumericValue) : String :=
  jsonObj [optStr "int64Value" v.int64Value, optStr "doubleValue" v.doubleValue]

def marshalStringFilter (sf : StringFilter) : String :=
  jsonObj [some ("matchType", jsonStr sf.matchType),
           some ("value", jsonStr sf.value),
           some ("caseSensitive", jsonBool sf.caseSensitive)]

def marshalNumericFilter (nf : NumericFilter) : String :=
  jsonObj [some ("operation", jsonStr nf.operation),
           some ("value", marshalNumericValue nf.value)]

def marshalBetweenFilter (bf : BetweenFilter) : String :=
  jsonObj [some ("fromValue", marshalNumericValue bf.fromValue),
           some ("toValue", marshalNumericValue bf.toValue)]

def marshalInListFilter (ilf : InListFilter) : String :=
  jsonObj [some ("values", jsonArr (ilf.values.map jsonStr)),
           some ("caseSensitive", jsonBool ilf.caseSensitive)]

def marshalFilter (f : Filter) : String :=
  jsonObj [some ("fieldName", jsonStr f.fieldName),
           f.stringFilter.map (fun sf => ("stringFilter", marshalStringFilter sf)),
           f.numericFilter.map (fun nf => ("numericFilter", marshalNumericFilter nf)),
           f.betweenFilter.map (fun bf => ("betweenFilter", marshalBetweenFilter bf)),
           f.inListFilter.map (fun ilf => ("inListFilter", marshalInListFilter ilf))]

def marshalFilterExpression : FilterExpression → String
  | .mk ag og ne f =>
    jsonObj
      [(match ag with
        | none => none
        | some l =>
          some ("andGroup", jsonObj [some ("expressions",
            jsonArr (l.attach.map (fun ⟨e, _⟩ => marshalFilterExpression e)))])),
       (match og with
        | none => none
        | some l =>
          some ("orGroup", jsonObj [some ("expressions",
            jsonArr (l.attach.map (fun ⟨e, _⟩ => marshalFilterExpression e)))])),
       (match ne with
        | none => none
        | some e => some ("notExpression", marshalFilterExpression e)),
       f.map (fun flt => ("filter", marshalFilter flt))]

def marshalDimensionOrderBy (d : DimensionOrderBy) : String :=
  jsonObj [some ("dimensionName", jsonStr d.dimensionName),
           optStr "orderType" d.orderType]

def marshalMetricOrderBy (m : MetricOrderBy) : String :=
  jsonObj [some ("metricName", jsonStr m.metricName)]

def marshalOrderBy (ob : OrderBy) : String :=
  jsonObj [optBool "desc" ob.desc,
           ob.dimension.map (fun d => ("dimension", marshalDimensionOrderBy d)),
           ob.metric.map (fun m => ("metric", marshalMetricOrderBy m))]

/-- `json.Marshal` on a `RunReportRequest` — `Property` carries the tag
`json:"-"` and is omitted. -/
def marshalRunReportRequest (r : RunReportRequest) : String :=
  jsonObj
    [(if r.dimensions.isEmpty then none
      else some ("dimensions", jsonArr (r.dimensions.map marshalDimension))),
     (if r.metrics.isEmpty then none
      else some ("metrics", jsonArr (r.metrics.map marshalMetric))),
     some ("dateRanges", jsonArr (r.dateRanges.map marshalDateRange)),
     r.dimensionFilter.map (fun e => ("dimensionFilter", marshalFilterExpression e)),
     r.metricFilter.map (fun e => ("metricFilter", marshalFilterExpression e)),
     optInt "offset" r.offset,
     optInt "limit" r.limit,
     optStrList "metricAggregations" r.metricAggregations,
     (if r.orderBys.isEmpty then none
      else some ("orderBys", jsonArr (r.orderBys.map marshalOrderBy))),
     optStr "currencyCode" r.currencyCode,
     optBool "keepEmptyRows" r.keepEmptyRows,
     optBool "returnPropertyQuota" r.returnPropertyQuota]

/-! ### Hash and identifier generators -/

/-- `Executor.generateQueryHash`: SHA-256 hex over the JSON marshalling of
the whole `QueryConfig`. -/
def generateQueryHash (config : QueryConfig) : String :=
  sha256Hex (marshalQueryConfig config)

/-- `DataClient.generateQueryHash`: SHA-256 hex over the JSON marshalling of
the converted `RunReportRequest`. -/
def dataGenerateQueryHash (request : RunReportRequest) : String :=
  sha256Hex (marshalRunReportRequest request)

/-- `Executor.generateQueryID`: `fmt.Sprintf("query_%d", time.Now().Unix())`;
the configuration argument is ignored. -/
def generateQueryID (now : Nat) (_config : QueryConfig) : String :=
  "query_" ++ natDec now

/-! ### Executor: validation (package `query`) -/

/-- The `contains` helper of the executor file. -/
def contains : List String → String → Bool
  | [], _ => false
  | s :: rest, item => if s = item then true else contains rest item

def validMatchTypes : List String :=
  ["EXACT", "CONTAINS", "STARTS_WITH", "ENDS_WITH", "REGEX"]

def validOperations : List String :=
  ["EQUAL", "GREATER_THAN", "LESS_THAN", "GREATER_THAN_OR_EQUAL", "LESS_THAN_OR_EQUAL"]

def validDimOrderTypes : List String :=
  ["ALPHANUMERIC", "CASE_INSENSITIVE_ALPHANUMERIC", "NUMERIC"]

/-- `Executor.validateFilter`. In Go the argument is a pointer and the
defaults are written through it; the model returns the written-back value. -/
def validateFilter (filter : FilterConfig) : Except String FilterConfig :=
  if filter.fieldName = "" then .error "field name is required"
  else if filter.type = "string" then
    let filter :=
      if filter.stringMatchType = "" then { filter with stringMatchType := "EXACT" } else filter
    if filter.stringValue = "" then .error "string value is required for string filter"
    else if ¬ contains validMatchTypes filter.stringMatchType then
      .error ("invalid string match type: " ++ filter.stringMatchType)
    else .ok filter
  else if filter.type = "numeric" then
    if filter.numericOperation = "" then .error "numeric operation is required for numeric filter"
    else if ¬ contains validOperations filter.numericOperation then
      .error ("invalid numeric operation: " ++ filter.numericOperation)
    else .ok filter
  else if filter.type = "between" then
    if filter.betweenFrom ≥ filter.betweenTo then
      .error "between filter \x27from\x27 value must be less than \x27to\x27 value"
    else .ok filter
  else if filter.type = "in_list" then
    if filter.inListValues.length = 0 then
      .error "in-list values are required for in_list filter"
    else .ok filter
  else if filter.type = "" then .ok { filter with type := "string" }
  else .error ("invalid filter type: " ++ filter.type)

/-- `Executor.validateOrderBy`; the auto-inferred field type is written back
through the pointer argument and returned here. -/
def validateOrderBy (orderBy : OrderByConfig) (config : QueryConfig) :
    Except String OrderByConfig :=
  if orderBy.fieldName = "" then .error "field name is required for order by"
  else if orderBy.fieldType = "dimension" then
    if ¬ contains config.dimensions orderBy.fieldName then
      .error ("dimension \x27" ++ orderBy.fieldName ++ "\x27 not found in query dimensions")
    else if orderBy.orderType ≠ "" ∧ ¬ contains validDimOrderTypes orderBy.orderType then
      .error ("invalid order type for dimension: " ++ orderBy.orderType)
    else .ok orderBy
  else if orderBy.fieldType = "metric" then
    if ¬ contains config.metrics orderBy.fieldName then
      .error ("metric \x27" ++ orderBy.fieldName ++ "\x27 not found in query metrics")
    else .ok orderBy
  else if contains config.dimensions orderBy.fieldName then
    .ok { orderBy with fieldType := "dimension" }
  else if contains config.metrics orderBy.fieldName then
    .ok { orderBy with fieldType := "metric" }
  else .error ("field \x27" ++ orderBy.fieldName ++ "\x27 not found in dimensions or metrics")

/-- The filter loop of `validateQuery`. Go iterates
`for i, filter := range config.Filters` and passes `&filter` — the address
of the per-iteration copy — so any defaults `validateFilter` writes are
discarded; only the error (if any) survives. -/
def firstFilterError : Nat → List FilterConfig → Option String
  | _, [] => none
  | i, f :: rest =>
    match validateFilter f with
    | .error e => some ("filter " ++ natDec i ++ " is invalid: " ++ e)
    | .ok _ => firstFilterError (i + 1) rest

/-- The order-by loop of `validateQuery`; same per-iteration-copy semantics
as the filter loop. -/
def firstOrderByError (config : QueryConfig) : Nat → List OrderByConfig → Option String
  | _, [] => none
  | i, ob :: rest =>
    match validateOrderBy ob config with
    | .error e => some ("order by " ++ natDec i ++ " is invalid: " ++ e)
    | .ok _ => firstOrderByError config (i + 1) rest

/-- The tail of `validateQuery` after the limit defaulting: offset check,
filter loop, order-by loop. -/
def validateQueryAfterLimit (config : QueryConfig) : QueryConfig × Option String :=
  if config.offset < 0 then (config, some "offset cannot be negative")
  else
    match firstFilterError 1 config.filters with
    | some e => (config, some e)
    | none =>
      match firstOrderByError config 1 config.orderBy with
      | some e => (config, some e)
      | none => (config, none)

/-- `Executor.validateQuery`. Go mutates `config` through a pointer while
returning only an `error`; the model returns the final state of the
configuration together with the optional error. -/
def validateQuery (config : QueryConfig) : QueryConfig × Option String :=
  if config.propertyID = "" then (config, some "property ID is required")
  else if config.startDate = "" ∨ config.endDate = "" then
    (config, some "date range is required (start_date and end_date)")
  else if config.dimensions.length = 0 ∧ config.metrics.length = 0 then
    (config, some "at least one dimension or metric is required")
  else if config.limit > 250000 then (config, some "limit cannot exceed 250,000 rows")
  else
    validateQueryAfterLimit
      (if config.limit ≤ 0 then { config with limit := 10000 } else config)

/-! ### Executor: filter translation -/

/-- The numeric-token encoder appearing (inline, three times) in
`convertSingleFilter`: integer token when the value equals its truncation,
decimal token otherwise. -/
def goNumericValue (v : Rat) : NumericValue :=
  if v = ratOfInt (goTrunc v) then { int64Value := intDec (goTrunc v) }
  else { doubleValue := formatRat v }

/-- `Executor.convertSingleFilter`. -/
def convertSingleFilter (filter : FilterConfig) : Except String FilterExpression :=
  if filter.type = "string" then
    .ok (.mk none none none (some
      { fieldName := filter.fieldName,
        stringFilter := some
          ⟨filter.stringMatchType, filter.stringValue, filter.stringCaseSensitive⟩ }))
  else if filter.type = "numeric" then
    .ok (.mk none none none (some
      { fieldName := filter.fieldName,
        numericFilter := some ⟨filter.numericOperation, goNumericValue filter.numericValue⟩ }))
  else if filter.type = "between" then
    .ok (.mk none none none (some
      { fieldName := filter.fieldName,
        betweenFilter := some
          ⟨goNumericValue filter.betweenFrom, goNumericValue filter.betweenTo⟩ }))
  else if filter.type = "in_list" then
    .ok (.mk none none none (some
      { fieldName := filter.fieldName,
        inListFilter := some ⟨filter.inListValues, filter.inListCaseSensitive⟩ }))
  else .error ("unsupported filter type: " ++ filter.type)

/-- The collection loop inside `convertFilters`. -/
def convertFilterList : List FilterConfig → Except String (List FilterExpression)
  | [] => .ok []
  | f :: rest =>
    match convertSingleFilter f with
    | .error e => .error e
    | .ok e =>
      match convertFilterList rest with
      | .error e2 => .error e2
      | .ok es => .ok (e :: es)

/-- `Executor.convertFilters`: `nil` for no filters, the single leaf for one
filter, an `AndGroup` of the leaves otherwise. -/
def convertFilters (filters : List FilterConfig) : Except String (Option FilterExpression) :=
  if filters.isEmpty then .ok none
  else
    match convertFilterList filters with
    | .error e => .error e
    | .ok [e] => .ok (some e)
    | .ok es => .ok (some (.mk (some es) none none none))

/-- The order-by conversion inside `configToRequest`: anything whose field
type is not literally `"dimension"` is emitted as a metric ordering. -/
def convertOrderBy (orderBy : OrderByConfig) : OrderBy :=
  if orderBy.fieldType = "dimension" then
    { desc := orderBy.descending, dimension := some ⟨orderBy.fieldName, orderBy.orderType⟩ }
  else
    { desc := orderBy.descending, metric := some ⟨orderBy.fieldName⟩ }

/-- `Executor.configToRequest`. -/
def configToRequest (config : QueryConfig) : Except String RunReportRequest :=
  let base : RunReportRequest :=
    { property := config.propertyID,
      dateRanges := [⟨config.startDate, config.endDate, ""⟩],
      limit := config.limit,
      offset := config.offset,
      keepEmptyRows := config.keepEmptyRows,
      metricAggregations := config.metricAggregations,
      currencyCode := config.currencyCode,
      returnPropertyQuota := config.returnPropertyQuota,
      dimensions := config.dimensions.map (fun n => ⟨n, ""⟩),
      metrics := config.metrics.map (fun n => ⟨n, ""⟩),
      orderBys := config.orderBy.map convertOrderBy }
  if config.filters.length > 0 then
    match convertFilters config.filters with
    | .error e => .error ("failed to convert filters: " ++ e)
    | .ok fe => .ok { base with dimensionFilter := fe }
  else .ok base

/-- A value of Go's `interface{}` as it is inspected by `applyOverrides`
(string, integer of either width, or anything else). -/
inductive OverrideValue : Type where
  | str (s : String)
  | int (n : Int)
  | other

/-- One step of `Executor.applyOverrides`: unknown keys and wrongly-typed
values are silently ignored. -/
def applyOverride (config : QueryConfig) : String × OverrideValue → QueryConfig
  | ("start_date", .str s) => { config with startDate := s }
  | ("end_date", .str s) => { config with endDate := s }
  | ("limit", .int n) => { config with limit := n }
  | ("offset", .int n) => { config with offset := n }
  | _ => config

/-- `Executor.applyOverrides` (it never returns an error). -/
def applyOverrides (config : QueryConfig) (overrides : List (String × OverrideValue)) :
    QueryConfig :=
  overrides.foldl applyOverride config

/-! ### Cache store (package `cache`, DuckDB-backed)

Tables become lists in insertion order; `QueryRow` on a `SELECT` without
`ORDER BY` becomes `List.find?`; `DELETE ... WHERE` becomes `List.filter`;
`INSERT OR REPLACE` removes the rows sharing the primary key and appends.
The serialized `result_data` TEXT column is held as the decoded value (the
JSON round-trip is injective on it). Instants are Unix seconds. -/

structure MetadataEntry where
  propertyId : String
  cacheType : String
  data : String
  createdAt : Nat
  expiresAt : Nat
  lastAccessed : Nat
  deriving DecidableEq

structure QueryCacheEntry where
  queryId : String
  propertyId : String
  queryHash : String
  queryParams : String
  resultData : RunReportResponse
  rowCount : Int
  createdAt : Nat
  expiresAt : Option Nat
  lastAccessed : Nat
  deriving DecidableEq

structure CacheStatsRow where
  totalHits : Nat := 0
  totalMisses : Nat := 0
  lastCleanup : Option Nat := none
  createdAt : Nat := 0
  updatedAt : Nat := 0
  deriving DecidableEq

structure CacheState where
  metadataTable : List MetadataEntry := []
  queryTable : List QueryCacheEntry := []
  stats : CacheStatsRow := {}
  deriving DecidableEq

def metaKeyMatch (propertyID cacheType : String) (e : MetadataEntry) : Bool :=
  e.propertyId == propertyID && e.cacheType == cacheType

def queryHashMatch (queryHash : String) (e : QueryCacheEntry) : Bool :=
  e.queryHash == queryHash

/-- `expires_at < NOW()` for metadata rows (`time.Now().After(expiresAt)` on
the read path is the same strict comparison). -/
def metaExpired (now : Nat) (e : MetadataEntry) : Bool := decide (e.expiresAt < now)

/-- `expires_at IS NOT NULL AND expires_at < NOW()` for query rows. -/
def queryExpired (now : Nat) (e : QueryCacheEntry) : Bool :=
  match e.expiresAt with
  | some t => decide (t < now)
  | none => false

def incrementHits (now : Nat) (st : CacheState) : CacheState :=
  { st with stats := { st.stats with totalHits := st.stats.totalHits + 1, updatedAt := now } }

def incrementMisses (now : Nat) (st : CacheState) : CacheState :=
  { st with stats := { st.stats with totalMisses := st.stats.totalMisses + 1, updatedAt := now } }

/-- `CacheClient.CacheMetadata`; `metadata_cache`'s primary key is
`property_id` alone, so the replace is keyed on it. -/
def cacheMetadata (now : Nat) (st : CacheState) (propertyID cacheType data : String)
    (ttlHours : Nat) : CacheState :=
  { st with metadataTable :=
      st.metadataTable.filter (fun x => ! (x.propertyId == propertyID)) ++
      [⟨propertyID, cacheType, data, now, now + ttlHours * 3600, now⟩] }

/-- `CacheClient.GetCachedMetadata`: `(found, payload, state after)`. -/
def getCachedMetadata (now : Nat) (st : CacheState) (propertyID cacheType : String) :
    Bool × Option String × CacheState :=
  match st.metadataTable.find? (metaKeyMatch propertyID cacheType) with
  | none => (false, none, incrementMisses now st)
  | some e =>
    if metaExpired now e then
      (false, none,
        { incrementMisses now st with
            metadataTable :=
              st.metadataTable.filter (fun x => ! metaKeyMatch propertyID cacheType x) })
    else
      (true, some e.data,
        incrementHits now
          { st with metadataTable :=
              st.metadataTable.map (fun x =>
                if metaKeyMatch propertyID cacheType x then { x with lastAccessed := now }
                else x) })

/-- `CacheClient.CacheQuery`; `query_cache`'s primary key is `query_id`. -/
def cacheQuery (now : Nat) (st : CacheState) (queryID propertyID queryHash : String)
    (queryParams : String) (resultData : RunReportResponse) (rowCount : Int)
    (ttlHours : Option Nat) : CacheState :=
  { st with queryTable :=
      st.queryTable.filter (fun x => ! (x.queryId == queryID)) ++
      [⟨queryID, propertyID, queryHash, queryParams, resultData, rowCount, now,
        ttlHours.map (fun h => now + h * 3600), now⟩] }

/-- `CacheClient.GetCachedQuery`: looked up by content hash only. -/
def getCachedQuery (now : Nat) (st : CacheState) (queryHash : String) :
    Bool × Option RunReportResponse × CacheState :=
  match st.queryTable.find? (queryHashMatch queryHash) with
  | none => (false, none, incrementMisses now st)
  | some e =>
    if queryExpired now e then
      (false, none,
        { incrementMisses now st with
            queryTable := st.queryTable.filter (fun x => ! queryHashMatch queryHash x) })
    else
      (true, some e.resultData,
        incrementHits now
          { st with queryTable :=
              st.queryTable.map (fun x =>
                if queryHashMatch queryHash x then { x with lastAccessed := now } else x) })

/-- `CacheClient.CleanupExpiredEntries`: `(rows removed, state after)`. -/
def cleanupExpiredEntries (now : Nat) (st : CacheState) : Nat × CacheState :=
  let deleted1 := (st.metadataTable.filter (metaExpired now)).length
  let deleted2 := (st.queryTable.filter (queryExpired now)).length
  (deleted1 + deleted2,
   { metadataTable := st.metadataTable.filter (fun e => ! metaExpired now e),
     queryTable := st.queryTable.filter (fun e => ! queryExpired now e),
     stats := { st.stats with lastCleanup := some now, updatedAt := now } })

/-! ### `DataClient.RunReport` and the executor entry points

The remote gateway (authenticated HTTP POST, status handling, body
decoding) is abstracted as an oracle `gw`; `calledGateway` records whether
the branch that invokes it was reached.  The single wall-clock instant of a
run is `now`; the formatted `time.Since` duration string is `dur`. -/

structure RunReportOutcome where
  request : RunReportRequest
  cache : Option CacheState
  result : Except String RunReportResponse
  calledGateway : Bool

/-- The in-place limit defaulting done at the top of `RunReport`
(`if request.Limit == 0 { request.Limit = 10000 }`). -/
def defaultLimit (request : RunReportRequest) : RunReportRequest :=
  if request.limit = 0 then { request with limit := 10000 } else request

def runReport (gw : RunReportRequest → Except String RunReportResponse) (now : Nat)
    (cache : Option CacheState) (request : RunReportRequest) : RunReportOutcome :=
  if request.property = "" then ⟨request, cache, .error "property ID is required", false⟩
  else if request.dateRanges.length = 0 then
    ⟨request, cache, .error "at least one date range is required", false⟩
  else if (defaultLimit request).limit > 250000 then
    ⟨defaultLimit request, cache, .error "limit cannot exceed 250,000 rows", false⟩
  else
    match cache with
    | some st =>
      match getCachedQuery now st (dataGenerateQueryHash (defaultLimit request)) with
      | (true, some cached, st2) => ⟨defaultLimit request, some st2, .ok cached, false⟩
      | (_, _, st2) =>
        match gw (defaultLimit request) with
        | .error e => ⟨defaultLimit request, some st2, .error e, true⟩
        | .ok resp =>
          ⟨defaultLimit request,
           some (cacheQuery now st2 ("query_" ++ natDec now) (defaultLimit request).property
             (dataGenerateQueryHash (defaultLimit request))
             (marshalRunReportRequest (defaultLimit request)) resp resp.rowCount (some 1)),
           .ok resp, true⟩
    | none =>
      match gw (defaultLimit request) with
      | .error e => ⟨defaultLimit request, none, .error e, true⟩
      | .ok resp => ⟨defaultLimit request, none, .ok resp, true⟩

structure ExecOutcome where
  config : QueryConfig
  cache : Option CacheState
  result : Option QueryResult
  error : Option String
  calledGateway : Bool

/-- `Executor.Execute`.  `config` is mutated through its pointer in Go; the
final state of that configuration is returned in the outcome. -/
def execute (gw : RunReportRequest → Except String RunReportResponse) (now : Nat)
    (dur : String) (cache : Option CacheState) (config : QueryConfig) : ExecOutcome :=
  match validateQuery config with
  | (config2, some e) =>
    ⟨config2, cache, none, some ("query validation failed: " ++ e), false⟩
  | (config2, none) =>
    match configToRequest config2 with
    | .error e =>
      ⟨config2, cache, none,
       some ("failed to convert query config to API request: " ++ e), false⟩
    | .ok request =>
      match (runReport gw now cache request).result with
      | .error err =>
        ⟨config2, (runReport gw now cache request).cache,
         some { queryID := generateQueryID now config2,
                propertyID := config2.propertyID,
                queryHash := generateQueryHash config2,
                queryConfig := some config2,
                executedAt := now, executionTime := dur, error := err },
         some err, (runReport gw now cache request).calledGateway⟩
      | .ok resp =>
        ⟨config2, (runReport gw now cache request).cache,
         some { queryID := generateQueryID now config2,
                propertyID := config2.propertyID,
                queryHash := generateQueryHash config2,
                queryConfig := some config2,
                executedAt := now, executionTime := dur,
                rowCount := resp.rowCount,
                dimensionHeaders := resp.dimensionHeaders,
                metricHeaders := resp.metricHeaders,
                rows := resp.rows,
                totals := resp.totals,
                maximums := resp.maximums,
                minimums := resp.minimums,
                responseMetadata := some resp.metadata,
                propertyQuota := resp.propertyQuota },
         none, (runReport gw now cache request).calledGateway⟩

/-- `Executor.ExecuteTemplate`: copies the template's query, applies the
overrides, bumps the usage statistics, then defers to `execute`. -/
def executeTemplate (gw : RunReportRequest → Except String RunReportResponse) (now : Nat)
    (dur : String) (cache : Option CacheState) (template : QueryTemplate)
    (overrides : List (String × OverrideValue)) : QueryTemplate × ExecOutcome :=
  let config := applyOverrides template.query overrides
  let template2 :=
    { template with usageCount := template.usageCount + 1, lastUsed := some now }
  (template2, execute gw now dur cache config)

/-! ### Concrete instances used in witnesses and counterexamples -/

def respW : RunReportResponse := { rowCount := 1 }

/-- A store with 3 expired entries (one metadata, two query) and 2 live
entries, read at instant 100. -/
def stC1 : CacheState :=
  { metadataTable :=
      [⟨"p1", "metadata", "expired-meta", 0, 50, 0⟩,
       ⟨"p2", "metadata", "live-meta", 0, 500, 0⟩],
    queryTable :=
      [⟨"q1", "p1", "h1", "", respW, 1, 0, some 40, 0⟩,
       ⟨"q2", "p1", "h2", "", respW, 1, 0, some 60, 0⟩,
       ⟨"q3", "p2", "h3", "", respW, 1, 0, some 900, 0⟩],
    stats := {} }

def cfgC2base : QueryConfig :=
  { propertyID := "123", dimensions := ["sessionSource"], metrics := ["sessions"],
    startDate := "30daysAgo", endDate := "yesterday" }

def cfgC2named : QueryConfig := { cfgC2base with name := "weekly report" }

def cfgC2stamped : QueryConfig := { cfgC2base with updatedAt := "2025-08-01T00:00:00Z" }

def cfgC3 : QueryConfig :=
  { propertyID := "123", dimensions := ["sessionSource"], metrics := ["sessions"],
    startDate := "30daysAgo", endDate := "yesterday" }

def reqC3 : RunReportRequest :=
  match configToRequest (validateQuery cfgC3).1 with
  | .ok r => r
  | .error _ => { property := "" }

def respC3 : RunReportResponse :=
  { rowCount := 2,
    dimensionHeaders := [⟨"sessionSource"⟩],
    metricHeaders := [⟨"sessions", "TYPE_INTEGER"⟩],
    rows := [⟨[⟨"google"⟩], [⟨"10"⟩]⟩] }

/-- A cache already holding an unexpired entry for `cfgC3`'s request digest. -/
def stC3 : CacheState :=
  { queryTable :=
      [⟨"query_1", "123", dataGenerateQueryHash reqC3, "", respC3, 2, 0, some 999999999, 0⟩] }

def outC3 : ExecOutcome :=
  execute (fun _ => .error "gateway must not be reached") 2000 "1ms" (some stC3) cfgC3

def fwStr1 : FilterConfig :=
  { fieldName := "deviceCategory", type := "string", stringMatchType := "EXACT",
    stringValue := "mobile" }

def fwStr2 : FilterConfig :=
  { fieldName := "sessionSource", type := "string", stringMatchType := "CONTAINS",
    stringValue := "google" }

def fwBetween : FilterConfig :=
  { fieldName := "sessions", type := "between", betweenFrom := 1, betweenTo := mkRat 11 2 }

def fwNumeric : FilterConfig :=
  { fieldName := "sessions", type := "numeric", numericOperation := "GREATER_THAN",
    numericValue := mkRat 11 2 }

/-- The example spec of the specification: subject "123", one dimension, one
metric, relative date range, limit 0. -/
def exampleSpecC6 : QueryConfig :=
  { propertyID := "123", dimensions := ["sessionSource"], metrics := ["sessions"],
    startDate := "30daysAgo", endDate := "yesterday", limit := 0 }

def overLimitSpecC6 : QueryConfig := { exampleSpecC6 with limit := 300000 }

def negOffsetSpecC6 : QueryConfig := { exampleSpecC6 with offset := -1 }

/-- A filter spec whose kind field is left unpopulated. -/
def defaultKindFilter : FilterConfig :=
  { fieldName := "deviceCategory", stringValue := "mobile" }

def defaultKindConfig : QueryConfig :=
  { propertyID := "123", dimensions := ["deviceCategory"], metrics := [],
    startDate := "7daysAgo", endDate := "today", filters := [defaultKindFilter] }

def cfgC8 : QueryConfig :=
  { propertyID := "55", dimensions := ["country"], metrics := ["sessions"],
    startDate := "2025-01-01", endDate := "2025-01-31" }

def gwC8 : RunReportRequest → Except String RunReportResponse :=
  fun _ => .error "remote exploded"

def stC8 : CacheState := {}

def cfgC9 : QueryConfig :=
  { propertyID := "9", dimensions := ["country"], metrics := [],
    startDate := "7daysAgo", endDate := "today", limit := 0 }

/-- A template whose query fails validation (empty subject id). -/
def tmplC9 : QueryTemplate := { name := "t", query := { propertyID := "" } }

def gwC9 : RunReportRequest → Except String RunReportResponse := fun _ => .ok {}

def outC9 : ExecOutcome := execute gwC9 50 "1ms" none cfgC9

/-- The four leading gates of `validateQuery` (required fields and the hard
limit cap); when they pass, control reaches the limit-defaulting step. -/
def requiredChecksPass (c : QueryConfig) : Bool :=
  ! (decide (c.propertyID = "")) &&
  ! (decide (c.startDate = "" ∨ c.endDate = "")) &&
  ! (decide (c.dimensions.length = 0 ∧ c.metrics.length = 0)) &&
  ! (decide (c.limit > 250000))

/-! ### General lemmas about the rendering helpers -/

theorem natDigitsAux_ne_nil (fuel n : Nat) : natDigitsAux (fuel + 1) n ≠ [] := by
  simp only [natDigitsAux]
  split <;> simp

theorem natDec_ne_empty (n : Nat) : natDec n ≠ "" := by
  have h := natDigitsAux_ne_nil n n
  simp only [natDec]
  intro hc
  apply h
  have : (String.mk (natDigitsAux (n + 1) n)).data = (String.mk []).data := by rw [hc]
  simpa using this

theorem intDec_ne_empty (z : Int) : intDec z ≠ "" := by
  simp only [intDec]
  split
  · intro hc
    have : ("-" ++ natDec z.natAbs).data = ("" : String).data := by rw [hc]
    simp [String.data_append] at this
  · exact natDec_ne_empty z.natAbs

theorem formatRat_ne_empty (q : Rat) : formatRat q ≠ "" := by
  simp only [formatRat]
  intro hc
  have hdata : (String.mk _).data = ("" : String).data := congrArg String.data hc
  simp only [String.data] at hdata
  rcases List.append_eq_nil.mp hdata with ⟨h1, _⟩
  rcases List.append_eq_nil.mp h1 with ⟨_, h3⟩
  exact natDigitsAux_ne_nil _ _ h3

/-! ### Claim C10 -/

/-- C10: the generated query identifier depends only on the wall-clock
second, never on the query configuration: at a fixed instant every
configuration receives the same `query_<unix-seconds>` string, so two
different queries in the same second collide. -/
theorem generateQueryID_ignores_config (now : Nat) (c₁ c₂ : QueryConfig) :
    generateQueryID now c₁ = generateQueryID now c₂ ∧
    generateQueryID now c₁ = "query_" ++ natDec now :=
  ⟨rfl, rfl⟩

/-! ### Claim C7 -/

/-- C7 (code bug): `validateFilter` does default an unpopulated filter kind
to `"string"`, but `validateQuery` passes it the address of the
per-iteration copy, so the default is discarded: the validated
configuration still carries the empty kind and compiling it fails with the
unsupported-filter-kind translation error instead of emitting a string
leaf. -/
theorem default_filter_kind_translation_fails :
    validateFilter defaultKindFilter = .ok { defaultKindFilter with type := "string" } ∧
    validateQuery defaultKindConfig = ({ defaultKindConfig with limit := 10000 }, none) ∧
    (validateQuery defaultKindConfig).1.filters = [defaultKindFilter] ∧
    configToRequest (validateQuery defaultKindConfig).1 =
      .error "failed to convert filters: unsupported filter type: " :=
  ⟨rfl, rfl, rfl, rfl⟩

/-! ### Claim C3 -/

set_option maxRecDepth 4000 in
/-- C3 (code bug): when the cache holds an unexpired entry for the request's
digest, `Execute` returns the stored payload and the gateway is never
invoked — but the returned `QueryResult` is not marked as coming from the
cache: no code ever sets `FromCache`, so it remains `false`. -/
theorem cache_hit_not_marked_from_cache :
    outC3.calledGateway = false ∧
    outC3.error = none ∧
    outC3.result.map QueryResult.rows = some respC3.rows ∧
    outC3.result.map QueryResult.rowCount = some respC3.rowCount ∧
    outC3.result.map QueryResult.fromCache = some false :=
  ⟨rfl, rfl, rfl, rfl, rfl⟩

/-! ### Claim C2 -/

set_option maxRecDepth 4000 in
/-- C2 counterexample: the executor-level query hash
(`Executor.generateQueryHash`, SHA-256 of the JSON marshalling of the whole
`QueryConfig`) changes when only the display name changes, and also when
only the update timestamp changes, although the two configurations agree on
property, dimensions, metrics, date range, limit, offset, filters and
order-bys. -/
theorem executorHash_sensitive_to_metadata :
    cfgC2named.propertyID = cfgC2base.propertyID ∧
    cfgC2named.dimensions = cfgC2base.dimensions ∧
    cfgC2named.metrics = cfgC2base.metrics ∧
    cfgC2named.startDate = cfgC2base.startDate ∧
    cfgC2named.endDate = cfgC2base.endDate ∧
    cfgC2named.limit = cfgC2base.limit ∧
    cfgC2named.offset = cfgC2base.offset ∧
    cfgC2named.filters = cfgC2base.filters ∧
    cfgC2named.orderBy = cfgC2base.orderBy ∧
    generateQueryHash cfgC2named ≠ generateQueryHash cfgC2base ∧
    generateQueryHash cfgC2stamped ≠ generateQueryHash cfgC2base :=
  ⟨rfl, rfl, rfl, rfl, rfl, rfl, rfl, rfl, rfl, by decide, by decide⟩

/-- C2 (amended): the digest actually used to probe and fill the query
cache — `DataClient.generateQueryHash` over the request produced by
`configToRequest`, which drops name, description, the timestamps and the
creator — is a pure function of the remaining fields: changing only that
display/caching metadata leaves the converted request, and hence the cache
digest, unchanged. -/
theorem cacheDigest_invariant_under_metadata (c : QueryConfig) (n d ca ua cb : String) :
    configToRequest
        { c with name := n, description := d, createdAt := ca, updatedAt := ua,
                 createdBy := cb } = configToRequest c ∧
    Except.map dataGenerateQueryHash
        (configToRequest
          { c with name := n, description := d, createdAt := ca, updatedAt := ua,
                   createdBy := cb }) =
      Except.map dataGenerateQueryHash (configToRequest c) :=
  ⟨rfl, rfl⟩

/-! ### Claim C4 -/

theorem convertFilterList_length {fs : List FilterConfig} {es : List FilterExpression}
    (h : convertFilterList fs = .ok es) : es.length = fs.length := by
  induction fs generalizing es with
  | nil =>
    simp only [convertFilterList, Except.ok.injEq] at h
    simp [← h]
  | cons f rest ih =>
    simp only [convertFilterList] at h
    cases hc : convertSingleFilter f with
    | error e => rw [hc] at h; exact Except.noConfusion h
    | ok e =>
      rw [hc] at h
      cases hr : convertFilterList rest with
      | error e2 => rw [hr] at h; exact Except.noConfusion h
      | ok es2 =>
        rw [hr] at h
        simp only [Except.ok.injEq] at h
        simp [← h, ih hr]

theorem convertFilterList_get {fs : List FilterConfig} {es : List FilterExpression}
    (h : convertFilterList fs = .ok es) :
    ∀ i (h1 : i < fs.length) (h2 : i < es.length),
      convertSingleFilter (fs.get ⟨i, h1⟩) = .ok (es.get ⟨i, h2⟩) := by
  induction fs generalizing es with
  | nil => intro i h1; exact absurd h1 (by simp)
  | cons f rest ih =>
    simp only [convertFilterList] at h
    cases hc : convertSingleFilter f with
    | error e => rw [hc] at h; exact Except.noConfusion h
    | ok e =>
      rw [hc] at h
      cases hr : convertFilterList rest with
      | error e2 => rw [hr] at h; exact Except.noConfusion h
      | ok es2 =>
        rw [hr] at h
        simp only [Except.ok.injEq] at h
        subst h
        intro i h1 h2
        cases i with
        | zero => simpa using hc
        | succ j => exact ih hr j (by simpa using h1) (by simpa using h2)

/-- C4: filter compilation yields no expression for the empty list, a bare
`Filter` leaf (no group wrapper) for a singleton, and for two or more
filters an `AndGroup` whose children are the compiled leaves in the
original input order; every compiled node is a leaf — `OrGroup` and `Not`
are never produced. -/
theorem convertFilters_structure :
    convertFilters [] = .ok none ∧
    (∀ f e, convertSingleFilter f = .ok e → convertFilters [f] = .ok (some e)) ∧
    (∀ f e, convertSingleFilter f = .ok e →
      e.andGroup = none ∧ e.orGroup = none ∧ e.notExpression = none ∧ e.filter ≠ none) ∧
    (∀ fs es, 2 ≤ fs.length → convertFilterList fs = .ok es →
      convertFilters fs = .ok (some (.mk (some es) none none none))) ∧
    (∀ fs es, convertFilterList fs = .ok es →
      es.length = fs.length ∧
      ∀ i (h1 : i < fs.length) (h2 : i < es.length),
        convertSingleFilter (fs.get ⟨i, h1⟩) = .ok (es.get ⟨i, h2⟩)) := by
  refine ⟨rfl, ?_, ?_, ?_, ?_⟩
  · intro f e h
    simp [convertFilters, convertFilterList, h]
  · intro f e h
    unfold convertSingleFilter at h
    split_ifs at h <;> first
      | exact Except.noConfusion h
      | (injection h with h1; subst h1;
         exact ⟨rfl, rfl, rfl, fun hc => Option.noConfusion hc⟩)
  · intro fs es hlen hconv
    have hne : fs.isEmpty = false := by
      cases fs with
      | nil => simp at hlen
      | cons a l => rfl
    simp only [convertFilters, hne, Bool.false_eq_true, if_false, hconv]
    cases es with
    | nil =>
      have := convertFilterList_length hconv
      simp at this
      omega
    | cons e1 tl =>
      cases tl with
      | nil =>
        have := convertFilterList_length hconv
        simp at this
        omega
      | cons e2 tl2 => rfl
  · intro fs es hconv
    exact ⟨convertFilterList_length hconv, convertFilterList_get hconv⟩

/-- Witness for C4 at the spec's example: two filter specs compile to an
`AndGroup` with exactly two leaf children in input order, and the empty
list compiles to no filter at all. -/
theorem convertFilters_structure_witness :
    convertFilters [] = .ok none ∧
    convertFilters [fwStr1, fwStr2] =
      .ok (some (.mk (some
        [.mk none none none
          (some ⟨"deviceCategory", some ⟨"EXACT", "mobile", false⟩, none, none, none⟩),
         .mk none none none
          (some ⟨"sessionSource", some ⟨"CONTAINS", "google", false⟩, none, none, none⟩)])
        none none none)) :=
  ⟨convertFilters_structure.1,
   convertFilters_structure.2.2.2.1 [fwStr1, fwStr2] _ (by decide) rfl⟩

/-! ### Claim C5 -/

/-- C5: the numeric-token rule — a value equal to its truncation is encoded
as the integer token, anything else as the exact decimal token with no
trailing zeros; exactly one token field is populated; 5 encodes as `"5"`
and 5.5 as `"5.5"`; and both the numeric kind and both bounds of the
between kind go through the identical encoder. -/
theorem numeric_encoding_rule :
    (∀ v : Rat, v = ratOfInt (goTrunc v) →
      goNumericValue v = { int64Value := intDec (goTrunc v), doubleValue := "" } ∧
      (goNumericValue v).int64Value ≠ "") ∧
    (∀ v : Rat, v ≠ ratOfInt (goTrunc v) →
      goNumericValue v = { int64Value := "", doubleValue := formatRat v } ∧
      (goNumericValue v).doubleValue ≠ "") ∧
    (∀ v : Rat, (goNumericValue v).int64Value = "" ∨ (goNumericValue v).doubleValue = "") ∧
    goNumericValue 5 = { int64Value := "5", doubleValue := "" } ∧
    goNumericValue (mkRat 11 2) = { int64Value := "", doubleValue := "5.5" } ∧
    (∀ f : FilterConfig, f.type = "numeric" →
      convertSingleFilter f = .ok (.mk none none none (some
        { fieldName := f.fieldName,
          numericFilter := some ⟨f.numericOperation, goNumericValue f.numericValue⟩ }))) ∧
    (∀ f : FilterConfig, f.type = "between" →
      convertSingleFilter f = .ok (.mk none none none (some
        { fieldName := f.fieldName,
          betweenFilter := some
            ⟨goNumericValue f.betweenFrom, goNumericValue f.betweenTo⟩ }))) := by
  refine ⟨?_, ?_, ?_, by decide, by decide, ?_, ?_⟩
  · intro v h
    constructor
    · unfold goNumericValue; rw [if_pos h]
    · unfold goNumericValue; rw [if_pos h]; exact intDec_ne_empty _
  · intro v h
    constructor
    · unfold goNumericValue; rw [if_neg h]
    · unfold goNumericValue; rw [if_neg h]; exact formatRat_ne_empty _
  · intro v
    unfold goNumericValue
    split_ifs with h
    · exact Or.inr rfl
    · exact Or.inl rfl
  · intro f h
    unfold convertSingleFilter
    rw [h]
    rfl
  · intro f h
    unfold convertSingleFilter
    rw [h]
    rfl

/-- Witness for C5: the encoder and both filter kinds evaluated at the
spec's example values 5.0 and 5.5. -/
theorem numeric_encoding_rule_witness :
    goNumericValue 5 = { int64Value := "5", doubleValue := "" } ∧
    goNumericValue (mkRat 11 2) = { int64Value := "", doubleValue := "5.5" } ∧
    (5 : Rat) = ratOfInt (goTrunc 5) ∧
    mkRat 11 2 ≠ ratOfInt (goTrunc (mkRat 11 2)) ∧
    convertSingleFilter fwNumeric = .ok (.mk none none none (some
      { fieldName := "sessions",
        numericFilter := some ⟨"GREATER_THAN", goNumericValue (mkRat 11 2)⟩ })) ∧
    convertSingleFilter fwBetween = .ok (.mk none none none (some
      { fieldName := "sessions",
        betweenFilter := some ⟨goNumericValue 1, goNumericValue (mkRat 11 2)⟩ })) :=
  ⟨numeric_encoding_rule.2.2.2.1, numeric_encoding_rule.2.2.2.2.1,
   by decide, by decide,
   numeric_encoding_rule.2.2.2.2.2.1 fwNumeric rfl,
   numeric_encoding_rule.2.2.2.2.2.2 fwBetween rfl⟩

/-! ### Lemmas about `validateQuery` and `execute` -/

theorem validateQueryAfterLimit_fst (c : QueryConfig) :
    (validateQueryAfterLimit c).1 = c := by
  unfold validateQueryAfterLimit
  split_ifs
  · rfl
  · cases firstFilterError 1 c.filters with
    | some e => rfl
    | none =>
      cases firstOrderByError c 1 c.orderBy with
      | some e => rfl
      | none => rfl

theorem validateQueryAfterLimit_offset {c : QueryConfig} (h : c.offset < 0) :
    (validateQueryAfterLimit c).2.isSome = true := by
  unfold validateQueryAfterLimit
  rw [if_pos h]
  rfl

theorem requiredChecksPass_true {c : QueryConfig} (h1 : ¬ c.propertyID = "")
    (h2 : ¬ (c.startDate = "" ∨ c.endDate = ""))
    (h3 : ¬ (c.dimensions.length = 0 ∧ c.metrics.length = 0))
    (h4 : ¬ c.limit > 250000) : requiredChecksPass c = true := by
  rcases not_and_or.mp h3 with h3a | h3a <;>
    simp [requiredChecksPass, h1, not_or.mp h2, h3a, h4]

theorem validateQuery_fst (c : QueryConfig) :
    (validateQuery c).1 =
      (if requiredChecksPass c && decide (c.limit ≤ 0) then { c with limit := 10000 }
       else c) := by
  unfold validateQuery
  by_cases h1 : c.propertyID = ""
  · rw [if_pos h1]
    have hr : requiredChecksPass c = false := by simp [requiredChecksPass, h1]
    rw [hr]
    simp
  rw [if_neg h1]
  by_cases h2 : c.startDate = "" ∨ c.endDate = ""
  · rw [if_pos h2]
    have hr : requiredChecksPass c = false := by
      rcases h2 with h2 | h2 <;> simp [requiredChecksPass, h2]
    rw [hr]
    simp
  rw [if_neg h2]
  by_cases h3 : c.dimensions.length = 0 ∧ c.metrics.length = 0
  · rw [if_pos h3]
    have hr : requiredChecksPass c = false := by
      simp [requiredChecksPass, List.length_eq_zero.mp h3.1, List.length_eq_zero.mp h3.2]
    rw [hr]
    simp
  rw [if_neg h3]
  by_cases h4 : c.limit > 250000
  · rw [if_pos h4]
    have hr : requiredChecksPass c = false := by simp [requiredChecksPass, h4]
    rw [hr]
    simp
  rw [if_neg h4]
  rw [requiredChecksPass_true h1 h2 h3 h4, validateQueryAfterLimit_fst]
  by_cases h5 : c.limit ≤ 0
  · rw [if_pos h5, if_pos]
    simp [h5]
  · rw [if_neg h5, if_neg]
    simp [h5]

theorem validateQuery_none_required {c : QueryConfig}
    (h : (validateQuery c).2 = none) : requiredChecksPass c = true := by
  unfold validateQuery at h
  by_cases h1 : c.propertyID = ""
  · rw [if_pos h1] at h; exact absurd h (by simp)
  rw [if_neg h1] at h
  by_cases h2 : c.startDate = "" ∨ c.endDate = ""
  · rw [if_pos h2] at h; exact absurd h (by simp)
  rw [if_neg h2] at h
  by_cases h3 : c.dimensions.length = 0 ∧ c.metrics.length = 0
  · rw [if_pos h3] at h; exact absurd h (by simp)
  rw [if_neg h3] at h
  by_cases h4 : c.limit > 250000
  · rw [if_pos h4] at h; exact absurd h (by simp)
  exact requiredChecksPass_true h1 h2 h3 h4

theorem execute_config_eq (gw : RunReportRequest → Except String RunReportResponse)
    (now : Nat) (dur : String) (cache : Option CacheState) (c : QueryConfig) :
    (execute gw now dur cache c).config = (validateQuery c).1 := by
  unfold execute
  rcases hv : validateQuery c with ⟨c2, err⟩
  cases err with
  | some e => simp
  | none =>
    cases hc : configToRequest c2 with
    | error e => simp [hc]
    | ok req =>
      simp only [hc]
      cases hr : (runReport gw now cache req).result with
      | error e => simp [hr]
      | ok resp => simp [hr]

/-! ### Claim C6 -/

/-- C6: `validateQuery` defaults a non-positive limit to 10000 on success,
rejects limits above 250000, rejects negative offsets, and accepts the
spec's example (subject "123", one dimension, one metric, relative dates,
limit 0) with resulting limit 10000 and no error. -/
theorem validateQuery_limit_rules :
    (∀ c c2, validateQuery c = (c2, none) → c.limit ≤ 0 → c2.limit = 10000) ∧
    (∀ c : QueryConfig, c.limit > 250000 → (validateQuery c).2.isSome = true) ∧
    (∀ c : QueryConfig, c.offset < 0 → (validateQuery c).2.isSome = true) ∧
    validateQuery exampleSpecC6 = ({ exampleSpecC6 with limit := 10000 }, none) := by
  refine ⟨?_, ?_, ?_, rfl⟩
  · intro c c2 h hle
    have hsnd : (validateQuery c).2 = none := by rw [h]
    have hrcp := validateQuery_none_required hsnd
    have hfst : (validateQuery c).1 = c2 := by rw [h]
    rw [validateQuery_fst, if_pos (by simp [hrcp, hle])] at hfst
    have := congrArg QueryConfig.limit hfst
    simpa using this.symm
  · intro c h
    unfold validateQuery
    by_cases h1 : c.propertyID = ""
    · rw [if_pos h1]; rfl
    rw [if_neg h1]
    by_cases h2 : c.startDate = "" ∨ c.endDate = ""
    · rw [if_pos h2]; rfl
    rw [if_neg h2]
    by_cases h3 : c.dimensions.length = 0 ∧ c.metrics.length = 0
    · rw [if_pos h3]; rfl
    rw [if_neg h3]
    rw [if_pos h]
    rfl
  · intro c h
    unfold validateQuery
    by_cases h1 : c.propertyID = ""
    · rw [if_pos h1]; rfl
    rw [if_neg h1]
    by_cases h2 : c.startDate = "" ∨ c.endDate = ""
    · rw [if_pos h2]; rfl
    rw [if_neg h2]
    by_cases h3 : c.dimensions.length = 0 ∧ c.metrics.length = 0
    · rw [if_pos h3]; rfl
    rw [if_neg h3]
    by_cases h4 : c.limit > 250000
    · rw [if_pos h4]; rfl
    rw [if_neg h4]
    exact validateQueryAfterLimit_offset (by split_ifs <;> exact h)

/-- Witness for C6: the defaulting, the two rejections and the example spec
evaluated concretely. -/
theorem validateQuery_limit_rules_witness :
    validateQuery exampleSpecC6 = ({ exampleSpecC6 with limit := 10000 }, none) ∧
    ({ exampleSpecC6 with limit := 10000 } : QueryConfig).limit = 10000 ∧
    (validateQuery overLimitSpecC6).2.isSome = true ∧
    (validateQuery negOffsetSpecC6).2.isSome = true :=
  ⟨validateQuery_limit_rules.2.2.2,
   validateQuery_limit_rules.1 exampleSpecC6 _ validateQuery_limit_rules.2.2.2 (by decide),
   validateQuery_limit_rules.2.1 overLimitSpecC6 (by decide),
   validateQuery_limit_rules.2.2.1 negOffsetSpecC6 (by decide)⟩

/-! ### Claim C9 -/

/-- C9 counterexample: a spec handed to `Execute` is not immutable — with
limit 0 the executor writes the default 10000 back through the pointer, so
the spec differs afterwards; and `ExecuteTemplate` updates the template's
usage count and last-used timestamp even when validation fails. -/
theorem execute_mutates_input_spec :
    cfgC9.limit = 0 ∧
    outC9.config.limit = 10000 ∧
    outC9.config ≠ cfgC9 ∧
    (executeTemplate gwC9 50 "1ms" none tmplC9 []).2.error.isSome = true ∧
    (executeTemplate gwC9 50 "1ms" none tmplC9 []).1.usageCount = tmplC9.usageCount + 1 ∧
    (executeTemplate gwC9 50 "1ms" none tmplC9 []).1.lastUsed = some 50 :=
  ⟨rfl, rfl, by decide, rfl, rfl, rfl⟩

/-- C9 (amended): `Execute` mutates the spec only through the validation
defaulting — when the required-field gates pass and the limit is ≤ 0 it
becomes 10000, every other field is unchanged (filter and order-by defaults
are applied to discarded copies); and `ExecuteTemplate` always bumps the
template's usage statistics, validation failure included, while operating
on a copy of the template's query. -/
theorem execute_mutation_frame (gw : RunReportRequest → Except String RunReportResponse)
    (now : Nat) (dur : String) (cache : Option CacheState) (c : QueryConfig) :
    (execute gw now dur cache c).config =
      (if requiredChecksPass c && decide (c.limit ≤ 0) then { c with limit := 10000 }
       else c) ∧
    (∀ t ov, (executeTemplate gw now dur cache t ov).1 =
      { t with usageCount := t.usageCount + 1, lastUsed := some now }) := by
  refine ⟨?_, fun t ov => rfl⟩
  rw [execute_config_eq, validateQuery_fst]

/-! ### Claim C1 -/

theorem length_filter_not_add {α : Type} (p : α → Bool) (l : List α) :
    (l.filter p).length + (l.filter (fun a => ! p a)).length = l.length := by
  induction l with
  | nil => rfl
  | cons a t ih =>
    by_cases h : p a = true
    · simp [List.filter_cons, h]
      omega
    · have h' : p a = false := by simpa using h
      simp [List.filter_cons, h']
      omega

/-- C1: an expired entry is never served as a hit — a read that resolves to
an expired entry reports `hit = false`, counts a miss and deletes every
entry under that key; the sweep removes exactly the currently-expired
entries of both tables and reports their number; and after a sweep every
read that still finds an entry is a hit returning the stored payload. -/
theorem expired_entries_never_hit (now : Nat) (st : CacheState) :
    (∀ pid ctype e, st.metadataTable.find? (metaKeyMatch pid ctype) = some e →
      metaExpired now e = true →
      (getCachedMetadata now st pid ctype).1 = false ∧
      (getCachedMetadata now st pid ctype).2.2.stats.totalMisses =
        st.stats.totalMisses + 1 ∧
      ∀ x ∈ (getCachedMetadata now st pid ctype).2.2.metadataTable,
        metaKeyMatch pid ctype x = false) ∧
    (∀ qh e, st.queryTable.find? (queryHashMatch qh) = some e →
      queryExpired now e = true →
      (getCachedQuery now st qh).1 = false ∧
      (getCachedQuery now st qh).2.2.stats.totalMisses = st.stats.totalMisses + 1 ∧
      ∀ x ∈ (getCachedQuery now st qh).2.2.queryTable, queryHashMatch qh x = false) ∧
    (∀ e, e ∈ (cleanupExpiredEntries now st).2.metadataTable ↔
      e ∈ st.metadataTable ∧ metaExpired now e = false) ∧
    (∀ e, e ∈ (cleanupExpiredEntries now st).2.queryTable ↔
      e ∈ st.queryTable ∧ queryExpired now e = false) ∧
    ((cleanupExpiredEntries now st).1 +
      (cleanupExpiredEntries now st).2.metadataTable.length +
      (cleanupExpiredEntries now st).2.queryTable.length =
      st.metadataTable.length + st.queryTable.length) ∧
    (∀ pid ctype e,
      (cleanupExpiredEntries now st).2.metadataTable.find? (metaKeyMatch pid ctype) =
        some e →
      (getCachedMetadata now (cleanupExpiredEntries now st).2 pid ctype).1 = true ∧
      (getCachedMetadata now (cleanupExpiredEntries now st).2 pid ctype).2.1 =
        some e.data) ∧
    (∀ qh e,
      (cleanupExpiredEntries now st).2.queryTable.find? (queryHashMatch qh) = some e →
      (getCachedQuery now (cleanupExpiredEntries now st).2 qh).1 = true ∧
      (getCachedQuery now (cleanupExpiredEntries now st).2 qh).2.1 =
        some e.resultData) := by
  refine ⟨?_, ?_, ?_, ?_, ?_, ?_, ?_⟩
  · intro pid ctype e hf hexp
    unfold getCachedMetadata
    simp only [hf]
    rw [if_pos hexp]
    refine ⟨rfl, rfl, ?_⟩
    intro x hx
    have := (List.mem_filter.mp hx).2
    simpa using this
  · intro qh e hf hexp
    unfold getCachedQuery
    simp only [hf]
    rw [if_pos hexp]
    refine ⟨rfl, rfl, ?_⟩
    intro x hx
    have := (List.mem_filter.mp hx).2
    simpa using this
  · intro e
    simp [cleanupExpiredEntries, List.mem_filter, Bool.not_eq_true']
  · intro e
    simp [cleanupExpiredEntries, List.mem_filter, Bool.not_eq_true']
  · have hm := length_filter_not_add (metaExpired now) st.metadataTable
    have hq := length_filter_not_add (queryExpired now) st.queryTable
    simp only [cleanupExpiredEntries]
    omega
  · intro pid ctype e hf
    have hmem : e ∈ (cleanupExpiredEntries now st).2.metadataTable :=
      List.mem_of_find?_eq_some hf
    have hexp : metaExpired now e = false := by
      simp only [cleanupExpiredEntries, List.mem_filter] at hmem
      simpa using hmem.2
    unfold getCachedMetadata
    simp only [hf]
    rw [if_neg (by simp [hexp])]
    exact ⟨rfl, rfl⟩
  · intro qh e hf
    have hmem : e ∈ (cleanupExpiredEntries now st).2.queryTable :=
      List.mem_of_find?_eq_some hf
    have hexp : queryExpired now e = false := by
      simp only [cleanupExpiredEntries, List.mem_filter] at hmem
      simpa using hmem.2
    unfold getCachedQuery
    simp only [hf]
    rw [if_neg (by simp [hexp])]
    exact ⟨rfl, rfl⟩

/-- Witness for C1 on a store with 3 expired and 2 live entries: the
expired reads miss (counting a miss) — the sweep removes exactly 3 — and
reads of the two live entries after the sweep still hit. -/
theorem expired_entries_never_hit_witness :
    (getCachedMetadata 100 stC1 "p1" "metadata").1 = false ∧
    (getCachedMetadata 100 stC1 "p1" "metadata").2.2.stats.totalMisses =
      stC1.stats.totalMisses + 1 ∧
    (getCachedQuery 100 stC1 "h1").1 = false ∧
    (cleanupExpiredEntries 100 stC1).1 = 3 ∧
    (getCachedMetadata 100 (cleanupExpiredEntries 100 stC1).2 "p2" "metadata").1 = true ∧
    (getCachedQuery 100 (cleanupExpiredEntries 100 stC1).2 "h3").1 = true := by
  obtain ⟨hm, hq, _, _, _, hpm, hpq⟩ := expired_entries_never_hit 100 stC1
  exact ⟨(hm "p1" "metadata" _ rfl rfl).1, (hm "p1" "metadata" _ rfl rfl).2.1,
    (hq "h1" _ rfl rfl).1, rfl, (hpm "p2" "metadata" _ rfl).1, (hpq "h3" _ rfl).1⟩

/-! ### Claim C8 -/

theorem getCachedQuery_miss_subset {now : Nat} {st : CacheState} {qh : String}
    {hit : Bool} {payload : Option RunReportResponse} {st2 : CacheState}
    (heq : getCachedQuery now st qh = (hit, payload, st2)) (hmiss : hit = false) :
    ∀ e ∈ st2.queryTable, e ∈ st.queryTable := by
  unfold getCachedQuery at heq
  cases hf : st.queryTable.find? (queryHashMatch qh) with
  | none =>
    rw [hf] at heq
    dsimp only at heq
    have h3 := congrArg (fun p => p.2.2) heq
    dsimp only at h3
    rw [← h3]
    intro e he
    exact he
  | some e0 =>
    rw [hf] at heq
    dsimp only at heq
    by_cases hexp : queryExpired now e0 = true
    · rw [if_pos hexp] at heq
      have h3 := congrArg (fun p => p.2.2) heq
      dsimp only at h3
      rw [← h3]
      intro e he
      exact List.mem_of_mem_filter he
    · rw [if_neg hexp] at heq
      have h1 := congrArg (fun p => p.1) heq
      dsimp only at h1
      rw [hmiss] at h1
      exact absurd h1 (by simp)

theorem getCachedQuery_not_true_none {now : Nat} {st : CacheState} {qh : String}
    {st2 : CacheState} : getCachedQuery now st qh ≠ (true, none, st2) := by
  unfold getCachedQuery
  cases hf : st.queryTable.find? (queryHashMatch qh) with
  | none => simp
  | some e0 =>
    dsimp only
    split_ifs with hexp
    · simp
    · simp

theorem runReport_failure_no_write (gw : RunReportRequest → Except String RunReportResponse)
    (now : Nat) (st : CacheState) (req : RunReportRequest) {msg : String}
    (hcg : (runReport gw now (some st) req).calledGateway = true)
    (herr : (runReport gw now (some st) req).result = .error msg) :
    ∃ cs, (runReport gw now (some st) req).cache = some cs ∧
      ∀ e ∈ cs.queryTable, e ∈ st.queryTable := by
  unfold runReport at hcg herr ⊢
  by_cases h1 : req.property = ""
  · rw [if_pos h1] at hcg
    simp at hcg
  rw [if_neg h1] at hcg herr ⊢
  by_cases h2 : req.dateRanges.length = 0
  · rw [if_pos h2] at hcg
    simp at hcg
  rw [if_neg h2] at hcg herr ⊢
  by_cases h3 : (defaultLimit req).limit > 250000
  · rw [if_pos h3] at hcg
    simp at hcg
  rw [if_neg h3] at hcg herr ⊢
  dsimp only at hcg herr ⊢
  generalize hq : getCachedQuery now st (dataGenerateQueryHash (defaultLimit req)) = probe
    at hcg herr ⊢
  rcases probe with ⟨hit, payload, st2⟩
  cases hit with
  | true =>
    cases payload with
    | some cached => dsimp only at hcg; exact absurd hcg (by simp)
    | none => exact absurd hq getCachedQuery_not_true_none
  | false =>
    cases payload with
    | some cached =>
      dsimp only at herr ⊢
      generalize gw (defaultLimit req) = gwres at herr ⊢
      cases gwres with
      | ok resp => simp at herr
      | error e =>
        dsimp only at herr ⊢
        exact ⟨st2, rfl, getCachedQuery_miss_subset hq rfl⟩
    | none =>
      dsimp only at herr ⊢
      generalize gw (defaultLimit req) = gwres at herr ⊢
      cases gwres with
      | ok resp => simp at herr
      | error e =>
        dsimp only at herr ⊢
        exact ⟨st2, rfl, getCachedQuery_miss_subset hq rfl⟩

/-- C8: when the gateway call fails, `Execute` returns both a structured
result carrying the query id, property id, query hash, timing and the
error text, and the error itself through the error channel; and nothing is
written to the query cache — every entry of the cache after the failed run
was already present before it. -/
theorem gateway_failure_result_and_no_cache_write
    (gw : RunReportRequest → Except String RunReportResponse) (now : Nat) (dur : String)
    (st : CacheState) (cfg : QueryConfig) (msg : String)
    (hcg : (execute gw now dur (some st) cfg).calledGateway = true)
    (herr : (execute gw now dur (some st) cfg).error = some msg) :
    (execute gw now dur (some st) cfg).result =
      some { queryID := generateQueryID now (validateQuery cfg).1,
             propertyID := (validateQuery cfg).1.propertyID,
             queryHash := generateQueryHash (validateQuery cfg).1,
             queryConfig := some (validateQuery cfg).1,
             executedAt := now, executionTime := dur, error := msg } ∧
    ∀ cs, (execute gw now dur (some st) cfg).cache = some cs →
      ∀ e ∈ cs.queryTable, e ∈ st.queryTable := by
  unfold execute at hcg herr ⊢
  generalize validateQuery cfg = vres at hcg herr ⊢
  rcases vres with ⟨c2, err⟩
  cases err with
  | some e => dsimp only at hcg; exact absurd hcg (by simp)
  | none =>
    dsimp only at hcg herr ⊢
    generalize hc : configToRequest c2 = creq at hcg herr ⊢
    cases creq with
    | error e =>
      dsimp only at hcg
      exact absurd hcg (by simp)
    | ok req =>
      dsimp only at hcg herr ⊢
      generalize hr : (runReport gw now (some st) req).result = rres at hcg herr ⊢
      cases rres with
      | ok resp =>
        dsimp only at herr
        exact absurd herr (by simp)
      | error err2 =>
        dsimp only at hcg herr ⊢
        have hmsg : err2 = msg := by simpa using herr
        subst hmsg
        refine ⟨rfl, ?_⟩
        intro cs hcs e he
        obtain ⟨cs', hcs', hsub⟩ := runReport_failure_no_write gw now st req hcg hr
        rw [hcs'] at hcs
        have : cs' = cs := by simpa using hcs
        subst this
        exact hsub e he

/-- Witness for C8: a valid spec, an empty cache and a gateway that always
fails, evaluated concretely. -/
theorem gateway_failure_witness :
    (execute gwC8 3000 "2ms" (some stC8) cfgC8).result =
      some { queryID := generateQueryID 3000 (validateQuery cfgC8).1,
             propertyID := (validateQuery cfgC8).1.propertyID,
             queryHash := generateQueryHash (validateQuery cfgC8).1,
             queryConfig := some (validateQuery cfgC8).1,
             executedAt := 3000, executionTime := "2ms", error := "remote exploded" } ∧
    ∀ cs, (execute gwC8 3000 "2ms" (some stC8) cfgC8).cache = some cs →
      ∀ e ∈ cs.queryTable, e ∈ stC8.queryTable :=
  gateway_failure_result_and_no_cache_write gwC8 3000 "2ms" stC8 cfgC8
    "remote exploded" rfl rfl

end Ga4Admin
